import Mathlib

/-! Verification of the ai-pdf-summarizer repository against its design
specification. The frontend (src/frontend/app/page.tsx) is embedded directly;
the backend pipeline (document store, workers, coordinator) is not part of the
repository sources, so it is modelled from the specification where a claim
needs it. -/

namespace PdfSummarizer

/- JavaScript string primitives used by the frontend, embedded over the
character list of a Lean string so they compute by kernel reduction. -/

/-- Embedding of JavaScript String.prototype.toLowerCase. -/
def jsToLower (s : String) : String := String.mk (s.data.map Char.toLower)

/-- Embedding of JavaScript String.prototype.endsWith. -/
def jsEndsWith (s suffix : String) : Bool := List.isSuffixOf suffix.data s.data

/-- Per-item shape of the list response as the client declares it
(interface Summary, src/frontend/app/page.tsx lines 5-12). -/
structure Summary where
  file_id : String
  filename : String
  status : String
  text : String
  summary : String
  updated_at : String
deriving DecidableEq

/-- Response shape of the list endpoint as the client declares it
(interface SummariesResponse, src/frontend/app/page.tsx lines 14-17). -/
structure SummariesResponse where
  summaries : List Summary
  count : Nat
deriving DecidableEq

/-- Field names of the client's response interface SummariesResponse. -/
def summariesResponseFields : List String := ["summaries", "count"]

/-- Field names of the client's per-item interface Summary. -/
def summaryFields : List String :=
  ["file_id", "filename", "status", "text", "summary", "updated_at"]

/-- Modelled from the spec: field names of the list-endpoint response shape as
the specification states it (section 6, GET list). -/
def specListResponseFields : List String := ["documents", "count"]

/-- Modelled from the spec: field names each listed document exposes as the
specification states them (section 6, GET list). -/
def specDocumentFields : List String :=
  ["id", "filename", "status", "extracted_text", "summary", "updated_at"]

/-- Renaming taking each field name of the specification's list shape to the
field name the client code actually uses. -/
def specToClientField : String → String
  | "documents" => "summaries"
  | "id" => "file_id"
  | "extracted_text" => "text"
  | f => f

/-- A browser File value as handleFileUpload consumes it: name, MIME content
type, and size in bytes. -/
structure UFile where
  name : String
  type : String
  size : Nat
deriving DecidableEq

/-- Maximum accepted upload size in bytes (src/frontend/app/page.tsx line 81). -/
def maxSize : Nat := 5 * 1024 * 1024

/-- Result of the validation phase of handleFileUpload: either an early return
with an upload-error message and no request, or the POST request is issued. -/
inductive UploadOutcome where
  | rejected (msg : String)
  | requested
deriving DecidableEq

/-- Validation phase of handleFileUpload (src/frontend/app/page.tsx lines
73-100): the file-type check, then the size check, and only past both does the
POST request go out. -/
def handleFileUpload (f : UFile) : UploadOutcome :=
  if f.type != "application/pdf" && !(jsEndsWith (jsToLower f.name) ".pdf") then
    .rejected "Only PDF files are allowed"
  else if f.size > maxSize then
    .rejected "File size must be less than 5MB"
  else
    .requested

/-- Guard of the polling effect (src/frontend/app/page.tsx lines 57-64): the
interval is installed exactly when this is true. -/
def hasInProgressSummaries (summaries : List Summary) : Bool :=
  summaries.any fun s =>
    jsToLower s.status == "uploaded" || jsToLower s.status == "text_ready"

/-- Client state touched by fetchSummaries (the useState hooks of
src/frontend/app/page.tsx lines 20-22). -/
structure UiState where
  summaries : List Summary
  loading : Bool
  error : Option String
deriving DecidableEq

/-- Outcome of the network round trip inside fetchSummaries: a thrown-and-caught
failure (non-ok response or network error) carrying its message, or a parsed
body whose summaries field may be null or missing. -/
inductive FetchOutcome where
  | failure (msg : String)
  | success (summaries : Option (List Summary)) (count : Nat)

/-- State effect of one completed fetchSummaries call
(src/frontend/app/page.tsx lines 30-50): on success the summaries state becomes
the response array or empty; the catch block sets error only when not silent;
the finally block clears loading only when not silent. -/
def fetchSummaries (silent : Bool) (res : FetchOutcome) (st : UiState) : UiState :=
  let st1 :=
    match res with
    | .success data _ => { st with summaries := data.getD [] }
    | .failure msg => if silent then st else { st with error := some msg }
  if silent then st1 else { st1 with loading := false }

/-- Status badge style selection (getStatusColor, src/frontend/app/page.tsx
lines 162-175). -/
def getStatusColor (status : String) : String :=
  match jsToLower status with
  | "uploaded" => "bg-blue-100 text-blue-800"
  | "text_ready" => "bg-yellow-100 text-yellow-800"
  | "summary_ready" => "bg-green-100 text-green-800"
  | "error" => "bg-red-100 text-red-800"
  | _ => "bg-gray-100 text-gray-800"

/- Backend pipeline model. The repository sources contain only the frontend,
so the document store and the two workers are modelled from the specification
(sections 3, 4 and 5). -/

/-- Modelled from the spec: the document lifecycle status (section 3); the
backend code is absent from the repository. -/
inductive DocStatus where
  | UPLOADED
  | TEXT_READY
  | SUMMARY_READY
  | ERROR
deriving DecidableEq

/-- Modelled from the spec: the Document record of the section 3 data model
(the raw content reference is owned by the external storage collaborator and
plays no role in the claims, so it is omitted). -/
structure Document where
  id : String
  filename : String
  status : DocStatus
  extracted_text : Option String
  summary : Option String
  error_detail : Option String
  updated_at : Nat
deriving DecidableEq

/-- Modelled from the spec: the edges of the section 4 state machine. -/
def allowedTransition : DocStatus → DocStatus → Bool
  | .UPLOADED, .TEXT_READY => true
  | .TEXT_READY, .SUMMARY_READY => true
  | .UPLOADED, .ERROR => true
  | .TEXT_READY, .ERROR => true
  | _, _ => false

/-- Modelled from the spec: the Document Store keyed by id (section 4.1). -/
def DocStore := String → Option Document

/-- Point update of the store at one key. -/
def setDoc (st : DocStore) (id : String) (d : Document) : DocStore :=
  fun k => if k = id then some d else st k

/-- Modelled from the spec: the Document Store error taxonomy (section 4.1). -/
inductive StoreError where
  | NotFound
  | AlreadyExists
  | Conflict
deriving DecidableEq

/-- Modelled from the spec: create (section 4.1), failing with AlreadyExists on
an id collision and otherwise inserting a fresh UPLOADED record. -/
def create (st : DocStore) (id filename : String) (now : Nat) :
    Except StoreError Document × DocStore :=
  match st id with
  | some _ => (.error .AlreadyExists, st)
  | none =>
    let d : Document := ⟨id, filename, .UPLOADED, none, none, none, now⟩
    (.ok d, setDoc st id d)

/-- Modelled from the spec: update with a compare-and-set on the previous
status (section 4.1): it fails with Conflict when the stored status no longer
matches the expected pre-state, and a failed update returns the store
unchanged; a successful mutation also sets updated_at atomically. -/
def update (st : DocStore) (id : String) (expected : DocStatus)
    (mutation : Document → Document) (now : Nat) :
    Except StoreError Document × DocStore :=
  match st id with
  | none => (.error .NotFound, st)
  | some d =>
    if d.status = expected then
      let d1 := { mutation d with updated_at := now }
      (.ok d1, setDoc st id d1)
    else
      (.error .Conflict, st)

/-- Modelled from the spec: the extraction worker's success path (section 4.3):
compare-and-set from UPLOADED to TEXT_READY setting extracted_text; when the
guard fails the job is an idempotent skip and the store is unchanged. -/
def runExtractSuccess (st : DocStore) (id txt : String) (now : Nat) : DocStore :=
  (update st id .UPLOADED
    (fun d => { d with status := .TEXT_READY, extracted_text := some txt }) now).2

/-- Modelled from the spec: the extraction worker's terminal failure path
(section 4.3): compare-and-set from UPLOADED to ERROR setting error_detail. -/
def runExtractFailure (st : DocStore) (id reason : String) (now : Nat) : DocStore :=
  (update st id .UPLOADED
    (fun d => { d with status := .ERROR, error_detail := some reason }) now).2

/-- Modelled from the spec: the summarization worker's success path (section
4.4): compare-and-set from TEXT_READY to SUMMARY_READY setting summary. -/
def runSummarizeSuccess (st : DocStore) (id sum : String) (now : Nat) : DocStore :=
  (update st id .TEXT_READY
    (fun d => { d with status := .SUMMARY_READY, summary := some sum }) now).2

/-- Modelled from the spec: the summarization worker's terminal failure path
(section 4.4): compare-and-set from TEXT_READY to ERROR setting error_detail. -/
def runSummarizeFailure (st : DocStore) (id reason : String) (now : Nat) : DocStore :=
  (update st id .TEXT_READY
    (fun d => { d with status := .ERROR, error_detail := some reason }) now).2

/-- Modelled from the spec: one observable mutation of the Document Store by
the pipeline: the coordinator submitting a new document (section 4.5) or one
worker completing a stage attempt (sections 4.3 and 4.4). -/
inductive PipelineStep : DocStore → DocStore → Prop where
  | submit (st : DocStore) (id fn : String) (now : Nat) :
      PipelineStep st (create st id fn now).2
  | extractOk (st : DocStore) (id txt : String) (now : Nat) :
      PipelineStep st (runExtractSuccess st id txt now)
  | extractFail (st : DocStore) (id reason : String) (now : Nat) :
      PipelineStep st (runExtractFailure st id reason now)
  | summarizeOk (st : DocStore) (id sum : String) (now : Nat) :
      PipelineStep st (runSummarizeSuccess st id sum now)
  | summarizeFail (st : DocStore) (id reason : String) (now : Nat) :
      PipelineStep st (runSummarizeFailure st id reason now)

/-- Modelled from the spec: the field/status coupling invariant of section 3,
stated per status: summary is set exactly in SUMMARY_READY; extracted_text is
set exactly in TEXT_READY and SUMMARY_READY, except that in ERROR it may
remain from before a downstream failure. -/
def fieldInv (d : Document) : Bool :=
  match d.status with
  | .UPLOADED => d.extracted_text.isNone && d.summary.isNone
  | .TEXT_READY => d.extracted_text.isSome && d.summary.isNone
  | .SUMMARY_READY => d.extracted_text.isSome && d.summary.isSome
  | .ERROR => d.summary.isNone

theorem update_lookup (st : DocStore) (id : String) (e : DocStatus)
    (mutation : Document → Document) (now : Nat) (k : String) :
    (update st id e mutation now).2 k = st k ∨
    ∃ d, st id = some d ∧ d.status = e ∧ k = id ∧
      (update st id e mutation now).2 k = some { mutation d with updated_at := now } := by
  unfold update
  cases h : st id with
  | none => exact Or.inl rfl
  | some d =>
    by_cases he : d.status = e
    · by_cases hk : k = id
      · exact Or.inr ⟨d, rfl, he, hk, by simp [he, setDoc, hk]⟩
      · exact Or.inl (by simp [he, setDoc, hk])
    · exact Or.inl (by simp [he])

theorem run_update_cases (st : DocStore) (id0 : String) (e : DocStatus)
    (mutation : Document → Document) (now : Nat) (id : String) (d d' : Document)
    (hd : st id = some d)
    (hd' : (update st id0 e mutation now).2 id = some d') :
    d' = d ∨ (d.status = e ∧ d' = { mutation d with updated_at := now }) := by
  rcases update_lookup st id0 e mutation now id with h | ⟨d0, h0, hst, hk, h⟩
  · rw [h, hd] at hd'
    exact Or.inl (Option.some.inj hd').symm
  · subst hk
    rw [h0] at hd
    injection hd with hd
    subst hd
    rw [h] at hd'
    exact Or.inr ⟨hst, (Option.some.inj hd').symm⟩

/-- C1 counterexample: a submission whose content type is not PDF is not
always rejected — a file typed text/plain but named with a .pdf suffix passes
validation and the upload request is issued. -/
theorem nonPdfType_accepted :
    handleFileUpload ⟨"a.pdf", "text/plain", 0⟩ = .requested ∧
    ("text/plain" : String) ≠ "application/pdf" := by
  decide

/-- C1 (amended): a submission whose content type is not PDF and whose name
does not end in .pdf (lowercased) is rejected with the validation error, so no
request is issued; and the request is issued only for submissions that pass
both the file-type check and the size check. -/
theorem boundary_validation (f : UFile) :
    (f.type ≠ "application/pdf" → jsEndsWith (jsToLower f.name) ".pdf" = false →
      handleFileUpload f = .rejected "Only PDF files are allowed") ∧
    (handleFileUpload f = .requested →
      (f.type = "application/pdf" ∨ jsEndsWith (jsToLower f.name) ".pdf" = true) ∧
      f.size ≤ maxSize) := by
  constructor
  · intro ht hn
    simp [handleFileUpload, ht, hn]
  · intro hr
    unfold handleFileUpload at hr
    by_cases h1 : (f.type != "application/pdf" && !jsEndsWith (jsToLower f.name) ".pdf") = true
    · rw [if_pos h1] at hr
      exact absurd hr (by simp)
    · rw [if_neg h1] at hr
      by_cases h2 : f.size > maxSize
      · rw [if_pos h2] at hr
        exact absurd hr (by simp)
      · refine ⟨?_, by omega⟩
        simp only [Bool.and_eq_true, bne_iff_ne, ne_eq, Bool.not_eq_true', not_and] at h1
        by_cases hty : f.type = "application/pdf"
        · exact Or.inl hty
        · exact Or.inr (by simpa using h1 hty)

theorem boundary_validation_witness :
    handleFileUpload ⟨"a.txt", "text/plain", 10⟩ = .rejected "Only PDF files are allowed" :=
  (boundary_validation ⟨"a.txt", "text/plain", 10⟩).1 (by decide) (by decide)

/-- C7: among PDF-typed submissions, one of size at most 5 * 1024 * 1024 bytes
passes the size check and the request is issued, while one strictly larger is
rejected with the size validation message, so no request is issued. -/
theorem size_check (f : UFile) (hpdf : f.type = "application/pdf") :
    (f.size ≤ maxSize → handleFileUpload f = .requested) ∧
    (f.size > maxSize → handleFileUpload f = .rejected "File size must be less than 5MB") := by
  unfold handleFileUpload
  rw [hpdf]
  constructor
  · intro hle
    rw [if_neg (by simp)]
    rw [if_neg (by omega)]
  · intro hgt
    rw [if_neg (by simp)]
    rw [if_pos hgt]

theorem size_check_witness :
    handleFileUpload ⟨"b.pdf", "application/pdf", 5 * 1024 * 1024⟩ = .requested ∧
    handleFileUpload ⟨"c.pdf", "application/pdf", 5 * 1024 * 1024 + 1⟩ =
      .rejected "File size must be less than 5MB" :=
  ⟨(size_check ⟨"b.pdf", "application/pdf", 5 * 1024 * 1024⟩ rfl).1 (by decide),
   (size_check ⟨"c.pdf", "application/pdf", 5 * 1024 * 1024 + 1⟩ rfl).2 (by decide)⟩

/-- C8: the file-type validation never rejects a file whose lowercased name
ends in .pdf, whatever its MIME type; and it emits the file-type error exactly
when the type is not application/pdf and the lowercased name does not end in
.pdf. -/
theorem type_check (f : UFile) :
    (jsEndsWith (jsToLower f.name) ".pdf" = true →
      handleFileUpload f ≠ .rejected "Only PDF files are allowed") ∧
    (handleFileUpload f = .rejected "Only PDF files are allowed" ↔
      f.type ≠ "application/pdf" ∧ jsEndsWith (jsToLower f.name) ".pdf" = false) := by
  have hmsg : ("File size must be less than 5MB" : String) ≠ "Only PDF files are allowed" := by
    decide
  constructor
  · intro hn hr
    unfold handleFileUpload at hr
    rw [if_neg (by simp [hn])] at hr
    by_cases h2 : f.size > maxSize
    · rw [if_pos h2] at hr
      exact hmsg (UploadOutcome.rejected.inj hr)
    · rw [if_neg h2] at hr
      exact UploadOutcome.noConfusion hr
  · constructor
    · intro hr
      unfold handleFileUpload at hr
      by_cases h1 : (f.type != "application/pdf" && !jsEndsWith (jsToLower f.name) ".pdf") = true
      · simpa [bne_iff_ne, Bool.not_eq_true'] using h1
      · rw [if_neg h1] at hr
        by_cases h2 : f.size > maxSize
        · rw [if_pos h2] at hr
          exact absurd (UploadOutcome.rejected.inj hr) hmsg
        · rw [if_neg h2] at hr
          exact UploadOutcome.noConfusion hr
    · intro ⟨ht, hn⟩
      simp [handleFileUpload, ht, hn]

theorem type_check_witness :
    handleFileUpload ⟨"REPORT.PDF", "application/octet-stream", 0⟩ ≠
      .rejected "Only PDF files are allowed" :=
  (type_check ⟨"REPORT.PDF", "application/octet-stream", 0⟩).1 (by decide)

/-- C3 counterexample: the client does not consume the list under the shape
the claim states — its per-item interface differs from the claimed field list
(file_id and text in place of id and extracted_text), and its response
interface keys the array by summaries, not documents. -/
theorem client_shape_differs :
    summaryFields ≠ specDocumentFields ∧
    summariesResponseFields ≠ specListResponseFields := by
  decide

/-- C3 (amended): the client consumes the list endpoint as
a summaries array plus count, each item exposing file_id, filename, status,
text, summary and updated_at — exactly the specification's shape after
renaming documents to summaries, id to file_id and extracted_text to text. -/
theorem client_shape_renamed :
    specListResponseFields.map specToClientField = summariesResponseFields ∧
    specDocumentFields.map specToClientField = summaryFields := by
  decide

/-- C4: the polling interval is installed exactly when some listed summary has
status uploaded or text_ready, compared on the lowercased status string as the
code does; with no summary in these two states the guard is false and no
interval exists. -/
theorem polling_condition (ss : List Summary) :
    hasInProgressSummaries ss = true ↔
      ∃ s ∈ ss, jsToLower s.status = "uploaded" ∨ jsToLower s.status = "text_ready" := by
  simp [hasInProgressSummaries, List.any_eq_true]

/-- C9: a completed fetchSummaries always leaves the summaries state equal to
the response array, with a null or missing summaries field collapsed to the
empty list; and a silent fetch failure changes nothing — in particular neither
the error state nor the loading flag. -/
theorem fetch_state_handling (silent : Bool) (res : FetchOutcome) (st : UiState) :
    (∀ data cnt, res = .success data cnt →
      (fetchSummaries silent res st).summaries = data.getD []) ∧
    (∀ cnt, res = .success none cnt → (fetchSummaries silent res st).summaries = []) ∧
    (∀ msg, res = .failure msg → silent = true → fetchSummaries silent res st = st) := by
  refine ⟨?_, ?_, ?_⟩
  · intro data cnt hres
    subst hres
    cases silent <;> simp [fetchSummaries]
  · intro cnt hres
    subst hres
    cases silent <;> simp [fetchSummaries]
  · intro msg hres hsil
    subst hres
    subst hsil
    simp [fetchSummaries]

theorem fetch_state_handling_witness :
    fetchSummaries true (.failure "Failed to fetch summaries") ⟨[], true, none⟩ =
      ⟨[], true, none⟩ :=
  (fetch_state_handling true (.failure "Failed to fetch summaries") ⟨[], true, none⟩).2.2
    "Failed to fetch summaries" rfl rfl

/-- C10: getStatusColor is total on strings and case-insensitive: it returns
the dedicated style for each of the four statuses compared on the lowercased
string, and the default gray style for every other string. -/
theorem status_color_total (s : String) :
    (jsToLower s = "uploaded" → getStatusColor s = "bg-blue-100 text-blue-800") ∧
    (jsToLower s = "text_ready" → getStatusColor s = "bg-yellow-100 text-yellow-800") ∧
    (jsToLower s = "summary_ready" → getStatusColor s = "bg-green-100 text-green-800") ∧
    (jsToLower s = "error" → getStatusColor s = "bg-red-100 text-red-800") ∧
    (jsToLower s ≠ "uploaded" → jsToLower s ≠ "text_ready" →
      jsToLower s ≠ "summary_ready" → jsToLower s ≠ "error" →
      getStatusColor s = "bg-gray-100 text-gray-800") := by
  refine ⟨?_, ?_, ?_, ?_, ?_⟩
  · intro h
    unfold getStatusColor
    rw [h]
    decide
  · intro h
    unfold getStatusColor
    rw [h]
    decide
  · intro h
    unfold getStatusColor
    rw [h]
    decide
  · intro h
    unfold getStatusColor
    rw [h]
    decide
  · intro h1 h2 h3 h4
    unfold getStatusColor
    split <;> simp_all

theorem status_color_total_witness :
    getStatusColor "UPLOADED" = "bg-blue-100 text-blue-800" ∧
    getStatusColor "Summary_Ready" = "bg-green-100 text-green-800" ∧
    getStatusColor "pending" = "bg-gray-100 text-gray-800" :=
  ⟨(status_color_total "UPLOADED").1 (by decide),
   (status_color_total "Summary_Ready").2.2.1 (by decide),
   (status_color_total "pending").2.2.2.2 (by decide) (by decide) (by decide) (by decide)⟩

theorem create_lookup (st : DocStore) (id0 fn : String) (now : Nat) (k : String) :
    (create st id0 fn now).2 k = st k ∨
    (st id0 = none ∧ k = id0 ∧
      (create st id0 fn now).2 k = some ⟨id0, fn, .UPLOADED, none, none, none, now⟩) := by
  unfold create
  cases h : st id0 with
  | some d => exact Or.inl rfl
  | none =>
    by_cases hk : k = id0
    · exact Or.inr ⟨rfl, hk, by simp [setDoc, hk]⟩
    · exact Or.inl (by simp [setDoc, hk])

/-- C2: along any pipeline step, each stored document either is left exactly
as it was or moves along an edge of the state machine — UPLOADED to
TEXT_READY, TEXT_READY to SUMMARY_READY, or a non-terminal status to ERROR —
and a document whose status is SUMMARY_READY or ERROR is never modified at
all, so both states are terminal. -/
theorem status_transitions_monotone (st st' : DocStore)
    (h : PipelineStep st st') (id : String) (d d' : Document)
    (hd : st id = some d) (hd' : st' id = some d') :
    (d' = d ∨ allowedTransition d.status d'.status = true) ∧
    ((d.status = .SUMMARY_READY ∨ d.status = .ERROR) → d' = d) := by
  cases h with
  | submit id0 fn now =>
    rcases create_lookup st id0 fn now id with h0 | ⟨hnone, hk, h0⟩
    · rw [h0, hd] at hd'
      have he := (Option.some.inj hd').symm
      exact ⟨Or.inl he, fun _ => he⟩
    · subst hk
      rw [hd] at hnone
      exact Option.noConfusion hnone
  | extractOk id0 txt now =>
    rcases run_update_cases st id0 .UPLOADED _ now id d d' hd hd' with h0 | ⟨hs, h0⟩
    · exact ⟨Or.inl h0, fun _ => h0⟩
    · subst h0
      refine ⟨Or.inr ?_, ?_⟩
      · rw [hs]
        rfl
      · intro ht
        rw [hs] at ht
        rcases ht with ht | ht <;> exact absurd ht (by decide)
  | extractFail id0 reason now =>
    rcases run_update_cases st id0 .UPLOADED _ now id d d' hd hd' with h0 | ⟨hs, h0⟩
    · exact ⟨Or.inl h0, fun _ => h0⟩
    · subst h0
      refine ⟨Or.inr ?_, ?_⟩
      · rw [hs]
        rfl
      · intro ht
        rw [hs] at ht
        rcases ht with ht | ht <;> exact absurd ht (by decide)
  | summarizeOk id0 sum now =>
    rcases run_update_cases st id0 .TEXT_READY _ now id d d' hd hd' with h0 | ⟨hs, h0⟩
    · exact ⟨Or.inl h0, fun _ => h0⟩
    · subst h0
      refine ⟨Or.inr ?_, ?_⟩
      · rw [hs]
        rfl
      · intro ht
        rw [hs] at ht
        rcases ht with ht | ht <;> exact absurd ht (by decide)
  | summarizeFail id0 reason now =>
    rcases run_update_cases st id0 .TEXT_READY _ now id d d' hd hd' with h0 | ⟨hs, h0⟩
    · exact ⟨Or.inl h0, fun _ => h0⟩
    · subst h0
      refine ⟨Or.inr ?_, ?_⟩
      · rw [hs]
        rfl
      · intro ht
        rw [hs] at ht
        rcases ht with ht | ht <;> exact absurd ht (by decide)

/-- Concrete one-document store for the C2 witness. -/
def c2Doc0 : Document := ⟨"doc1", "report.pdf", .UPLOADED, none, none, none, 0⟩

/-- Store holding only c2Doc0. -/
def c2Store0 : DocStore := setDoc (fun _ => none) "doc1" c2Doc0

/-- The document after a successful extraction step on c2Store0. -/
def c2Doc1 : Document :=
  ⟨"doc1", "report.pdf", .TEXT_READY, some "the text", none, none, 1⟩

theorem status_transitions_monotone_witness :
    c2Doc1 = c2Doc0 ∨ allowedTransition c2Doc0.status c2Doc1.status = true :=
  (status_transitions_monotone c2Store0 (runExtractSuccess c2Store0 "doc1" "the text" 1)
    (PipelineStep.extractOk c2Store0 "doc1" "the text" 1) "doc1" c2Doc0 c2Doc1
    (by decide) (by decide)).1

/-- C5: the field/status coupling — summary set exactly in SUMMARY_READY,
extracted_text set exactly in TEXT_READY and SUMMARY_READY except that an
ERROR may keep text set from before a downstream failure — is preserved by
every pipeline step; and any document satisfying it has summary set exactly
when SUMMARY_READY, text set whenever TEXT_READY or SUMMARY_READY, and text
unset while still UPLOADED. -/
theorem field_coupling_invariant (st st' : DocStore) (h : PipelineStep st st')
    (hinv : ∀ id d, st id = some d → fieldInv d = true) :
    (∀ id d, st' id = some d → fieldInv d = true) ∧
    (∀ dd : Document, fieldInv dd = true →
      (dd.summary.isSome = true ↔ dd.status = .SUMMARY_READY) ∧
      ((dd.status = .TEXT_READY ∨ dd.status = .SUMMARY_READY) →
        dd.extracted_text.isSome = true) ∧
      (dd.status = .UPLOADED → dd.extracted_text.isSome = false)) := by
  constructor
  · intro id d' hd'
    cases h with
    | submit id0 fn now =>
      rcases create_lookup st id0 fn now id with h0 | ⟨hnone, hk, h0⟩
      · rw [h0] at hd'
        exact hinv id d' hd'
      · rw [h0] at hd'
        cases Option.some.inj hd'
        rfl
    | extractOk id0 txt now =>
      unfold runExtractSuccess at hd'
      rcases update_lookup st id0 .UPLOADED
          (fun d => { d with status := .TEXT_READY, extracted_text := some txt }) now id with
        h0 | ⟨d0, hget, hstat, hk, h0⟩
      · rw [h0] at hd'
        exact hinv id d' hd'
      · rw [h0] at hd'
        cases Option.some.inj hd'
        have hold := hinv id0 d0 hget
        obtain ⟨i0, f0, s0, et0, su0, ed0, ua0⟩ := d0
        simp only at hstat
        subst hstat
        simp [fieldInv] at hold ⊢
        exact hold.2
    | extractFail id0 reason now =>
      unfold runExtractFailure at hd'
      rcases update_lookup st id0 .UPLOADED
          (fun d => { d with status := .ERROR, error_detail := some reason }) now id with
        h0 | ⟨d0, hget, hstat, hk, h0⟩
      · rw [h0] at hd'
        exact hinv id d' hd'
      · rw [h0] at hd'
        cases Option.some.inj hd'
        have hold := hinv id0 d0 hget
        obtain ⟨i0, f0, s0, et0, su0, ed0, ua0⟩ := d0
        simp only at hstat
        subst hstat
        simp [fieldInv] at hold ⊢
        exact hold.2
    | summarizeOk id0 sum now =>
      unfold runSummarizeSuccess at hd'
      rcases update_lookup st id0 .TEXT_READY
          (fun d => { d with status := .SUMMARY_READY, summary := some sum }) now id with
        h0 | ⟨d0, hget, hstat, hk, h0⟩
      · rw [h0] at hd'
        exact hinv id d' hd'
      · rw [h0] at hd'
        cases Option.some.inj hd'
        have hold := hinv id0 d0 hget
        obtain ⟨i0, f0, s0, et0, su0, ed0, ua0⟩ := d0
        simp only at hstat
        subst hstat
        simp [fieldInv] at hold ⊢
        exact hold.1
    | summarizeFail id0 reason now =>
      unfold runSummarizeFailure at hd'
      rcases update_lookup st id0 .TEXT_READY
          (fun d => { d with status := .ERROR, error_detail := some reason }) now id with
        h0 | ⟨d0, hget, hstat, hk, h0⟩
      · rw [h0] at hd'
        exact hinv id d' hd'
      · rw [h0] at hd'
        cases Option.some.inj hd'
        have hold := hinv id0 d0 hget
        obtain ⟨i0, f0, s0, et0, su0, ed0, ua0⟩ := d0
        simp only at hstat
        subst hstat
        simp [fieldInv] at hold ⊢
        exact hold.2
  · intro dd hdd
    obtain ⟨i, fn, s, et, su, ed, ua⟩ := dd
    cases s <;> cases et <;> cases su <;> simp_all [fieldInv]

/-- Concrete one-document store for the C5 witness. -/
def c5Doc0 : Document := ⟨"d1", "file.pdf", .UPLOADED, none, none, none, 0⟩

/-- Store holding only c5Doc0. -/
def c5Store0 : DocStore := setDoc (fun _ => none) "d1" c5Doc0

/-- The document after a successful extraction step on c5Store0. -/
def c5Doc1 : Document := ⟨"d1", "file.pdf", .TEXT_READY, some "body", none, none, 1⟩

theorem field_coupling_invariant_witness : fieldInv c5Doc1 = true :=
  (field_coupling_invariant c5Store0 (runExtractSuccess c5Store0 "d1" "body" 1)
    (PipelineStep.extractOk c5Store0 "d1" "body" 1)
    (by
      intro id d hd
      unfold c5Store0 setDoc at hd
      by_cases hk : id = "d1"
      · rw [if_pos hk] at hd
        cases Option.some.inj hd
        decide
      · rw [if_neg hk] at hd
        exact Option.noConfusion hd)).1
    "d1" c5Doc1 (by decide)

/-- C6: the compare-and-set update fails with Conflict exactly when the stored
status differs from the expected pre-state; any failed update returns the
store unchanged; and when two updates race on the same document with the same
expected pre-state (each mutation moving the status off that pre-state, as
every pipeline mutation does), the first succeeds and the second then fails
with Conflict — exactly one wins. -/
theorem update_compare_and_set (st : DocStore) (id : String) (d : Document)
    (expected : DocStatus) (mu1 mu2 : Document → Document) (n1 n2 : Nat)
    (hd : st id = some d) (hmove : (mu1 d).status ≠ expected) :
    ((update st id expected mu1 n1).1 = .error .Conflict ↔ d.status ≠ expected) ∧
    (∀ e : StoreError, (update st id expected mu1 n1).1 = .error e →
      (update st id expected mu1 n1).2 = st) ∧
    (d.status = expected →
      (update st id expected mu1 n1).1 = .ok { mu1 d with updated_at := n1 } ∧
      (update (update st id expected mu1 n1).2 id expected mu2 n2).1 = .error .Conflict) := by
  refine ⟨?_, ?_, ?_⟩
  · unfold update
    rw [hd]
    by_cases he : d.status = expected
    · simp [he]
    · simp [he]
  · intro e
    unfold update
    rw [hd]
    by_cases he : d.status = expected
    · simp [he]
    · simp [he]
  · intro hexp
    have h2 : (update st id expected mu1 n1).2 id = some { mu1 d with updated_at := n1 } := by
      unfold update
      rw [hd]
      simp [hexp, setDoc]
    constructor
    · unfold update
      rw [hd]
      simp [hexp]
    · generalize hg : (update st id expected mu1 n1).2 = s2 at h2
      unfold update
      rw [h2]
      simp [hmove]

/-- Concrete document for the C6 witness. -/
def c6Doc0 : Document := ⟨"d2", "x.pdf", .UPLOADED, none, none, none, 0⟩

/-- Store holding only c6Doc0. -/
def c6Store0 : DocStore := setDoc (fun _ => none) "d2" c6Doc0

/-- The extraction-success mutation used in the C6 witness. -/
def c6Mu (d : Document) : Document :=
  { d with status := .TEXT_READY, extracted_text := some "t" }

theorem update_compare_and_set_witness :
    (update c6Store0 "d2" .UPLOADED c6Mu 1).1 = .ok { c6Mu c6Doc0 with updated_at := 1 } ∧
    (update (update c6Store0 "d2" .UPLOADED c6Mu 1).2 "d2" .UPLOADED c6Mu 2).1 =
      .error .Conflict :=
  (update_compare_and_set c6Store0 "d2" c6Doc0 .UPLOADED c6Mu c6Mu 1 2
    (by decide) (by decide)).2.2 (by decide)

end PdfSummarizer
